import Mathlib

/-!
Verification development for the story completion pipeline
(`src/features/events/StoryCompletionService.ts` and collaborators).

The stateful TypeScript service is embedded as pure functions over an
explicit `World` state: the database rows touched by the service (story,
images, music), the process-wide `completionChecks` set, and the log of
Phase-Trigger invocations.  Queries that may raise at runtime are modelled
by per-operation failure flags on the world; a raised error is an
`Except.error`.  Numeric literals (the 0.90 success threshold) are embedded
as exact rationals.
-/

namespace Saga

/-- A story row: the fields read and written by the completion service. -/
structure Story where
  status : String
  audio_url : Option String
  deriving Repr, DecidableEq

/-- A music row: the fields read by `checkMusicCompletion`. -/
structure Music where
  status : String
  audio_url : Option String
  deriving Repr, DecidableEq

/-- An image row: owning story and pipeline status. -/
structure Image where
  story_id : String
  status : String
  deriving Repr, DecidableEq

/-- JavaScript truthiness of an optional string field (`!!story?.audio_url`):
`null`/`undefined` and the empty string are falsy. -/
def strTruthy : Option String → Bool
  | none => false
  | some s => s != ""

/-- Explicit state for the completion service: database rows, the static
`completionChecks` set, the Phase-Trigger invocation log, and failure flags
saying which database operations raise when called. -/
structure World where
  completionChecks : List String
  stories : List (String × Story)
  images : List Image
  musics : List (String × Music)
  triggers : List String
  failFindStory : Bool
  failAudioQuery : Bool
  failImageCount : Bool
  failMusicQuery : Bool
  failUpdateStory : Bool
  deriving Repr, DecidableEq

/-- `prisma.story.findUnique({ where: { id: storyId } })`. -/
def findStory (w : World) (storyId : String) : Option Story :=
  (w.stories.find? (fun p => p.1 == storyId)).map Prod.snd

/-- `prisma.music.findFirst({ where: { story_id: storyId } })`. -/
def findMusic (w : World) (storyId : String) : Option Music :=
  (w.musics.find? (fun p => p.1 == storyId)).map Prod.snd

/-- `MIN_IMAGE_SUCCESS_RATE = 0.90` (StoryCompletionService line 8). -/
def MIN_IMAGE_SUCCESS_RATE : ℚ := 9 / 10

/-- `NON_TERMINAL_STATUSES = ['queued', 'pending', 'generating']`
(StoryCompletionService line 11). -/
def NON_TERMINAL_STATUSES : List String := ["queued", "pending", "generating"]

/-- `TERMINAL_FAILED_STATUSES = ['failed', 'terminal_failed']`
(StoryCompletionService line 12). -/
def TERMINAL_FAILED_STATUSES : List String := ["failed", "terminal_failed"]

/-- The status `generateImageForShot` (ImageService) writes when an image
generation request is dispatched: `status: 'processing'`. -/
def dispatchedImageStatus : String := "processing"

/-- `prisma.image.count({ where: { story_id: storyId } })`. -/
def imageTotal (w : World) (storyId : String) : Nat :=
  (w.images.filter (fun i => i.story_id == storyId)).length

/-- `prisma.image.count({ where: { story_id, status: 'completed' } })`. -/
def imageCompletedCount (w : World) (storyId : String) : Nat :=
  (w.images.filter (fun i => i.story_id == storyId && i.status == "completed")).length

/-- `prisma.image.count({ where: { story_id, status: { in: TERMINAL_FAILED_STATUSES } } })`. -/
def imageFailedCount (w : World) (storyId : String) : Nat :=
  (w.images.filter (fun i =>
    i.story_id == storyId && TERMINAL_FAILED_STATUSES.contains i.status)).length

/-- `prisma.image.count({ where: { story_id, status: { in: NON_TERMINAL_STATUSES } } })`. -/
def imageNonTerminalCount (w : World) (storyId : String) : Nat :=
  (w.images.filter (fun i =>
    i.story_id == storyId && NON_TERMINAL_STATUSES.contains i.status)).length

/-- Return record of `checkImagesCompletion`. -/
structure ImagesResult where
  acceptable : Bool
  total : Nat
  completed : Nat
  failed : Nat
  missing : Nat
  nonTerminal : Nat
  allAttempted : Bool
  successRate : ℚ
  deriving Repr, DecidableEq

/-- The all-zero record returned on `total === 0` and on a query error. -/
def zeroImagesResult : ImagesResult :=
  { acceptable := false, total := 0, completed := 0, failed := 0,
    missing := 0, nonTerminal := 0, allAttempted := false, successRate := 0 }

/-- `checkImagesCompletion` (StoryCompletionService lines 110–175): the four
count queries, the `total === 0` guard, and the two gates
`allAttempted = (nonTerminal === 0)` and
`successRate >= MIN_IMAGE_SUCCESS_RATE`.  A failing count query is caught
and the zero record returned. -/
def checkImagesCompletion (w : World) (storyId : String) : ImagesResult :=
  if w.failImageCount then
    zeroImagesResult
  else
    let total := imageTotal w storyId
    let completed := imageCompletedCount w storyId
    let failed := imageFailedCount w storyId
    let nonTerminal := imageNonTerminalCount w storyId
    if total = 0 then
      zeroImagesResult
    else
      let successRate : ℚ := (completed : ℚ) / (total : ℚ)
      let allAttempted : Bool := nonTerminal = 0
      let acceptable : Bool := allAttempted && decide (MIN_IMAGE_SUCCESS_RATE ≤ successRate)
      { acceptable := acceptable, total := total, completed := completed,
        failed := failed, missing := total - completed, nonTerminal := nonTerminal,
        allAttempted := allAttempted, successRate := successRate }

/-- `checkAudioCompletion` (lines 90–103): re-queries the story; audio is
ready iff `audio_url` is truthy and `status === 'audio_completed'`; its own
query errors are caught and `false` returned. -/
def checkAudioCompletion (w : World) (storyId : String) : Bool :=
  if w.failAudioQuery then false
  else
    match findStory w storyId with
    | none => false
    | some s => strTruthy s.audio_url && s.status == "audio_completed"

/-- `checkMusicCompletion` (lines 180–193): ready iff a music row exists with
`status === 'completed'` and a truthy `audio_url`; query errors are caught
and `false` returned. -/
def checkMusicCompletion (w : World) (storyId : String) : Bool :=
  if w.failMusicQuery then false
  else
    match findMusic w storyId with
    | none => false
    | some m => m.status == "completed" && strTruthy m.audio_url

/-- `prisma.story.update({ where: { id: storyId }, data: { status } })`:
raises when the update fails or no row matches the id; otherwise rewrites
the status of the matching row. -/
def updateStoryStatus (w : World) (storyId newStatus : String) : Except Unit World :=
  if w.failUpdateStory then .error ()
  else if (w.stories.find? (fun p => p.1 == storyId)).isNone then .error ()
  else .ok { w with
    stories := w.stories.map (fun p =>
      if p.1 == storyId then (p.1, { p.2 with status := newStatus }) else p) }

/-- `markStoryCompleted` (lines 198–212): an unconditional status update —
the `data` it writes is `status: 'audio_completed'`; errors are logged and
re-thrown. -/
def markStoryCompleted (w : World) (storyId : String) : Except Unit World :=
  updateStoryStatus w storyId "audio_completed"

/-- `triggerNextPhase` (lines 217–239): fire-and-forget dispatch of the next
phase; its own errors are caught and never thrown.  Modelled as appending
the story id to the trigger log. -/
def triggerNextPhase (w : World) (storyId : String) : World :=
  { w with triggers := w.triggers ++ [storyId] }

/-- The `try` block of `checkStoryCompletion` (lines 27–78): load story
(raises on `failFindStory`, caught by the outer catch which re-throws);
return early when the story is missing, already `'completed'`, audio not
ready, images not all attempted, images below threshold, or music not
ready; otherwise mark the story and invoke the Phase Trigger.  The second
component is the exception state the outer catch re-throws (line 81).
The source binds the images result once; `checkImagesCompletion` is pure
here, so reading it twice is the same value. -/
def checkStoryCompletionBody (w : World) (storyId : String) :
    World × Except Unit Unit :=
  if w.failFindStory then (w, .error ())
  else
    match findStory w storyId with
    | none => (w, .ok ())
    | some story =>
      if story.status == "completed" then (w, .ok ())
      else if !(checkAudioCompletion w storyId) then (w, .ok ())
      else if !((checkImagesCompletion w storyId).allAttempted) then (w, .ok ())
      else if !((checkImagesCompletion w storyId).acceptable) then (w, .ok ())
      else if !(checkMusicCompletion w storyId) then (w, .ok ())
      else
        match markStoryCompleted w storyId with
        | .error e => (w, .error e)
        | .ok w2 => (triggerNextPhase w2 storyId, .ok ())

/-- The `finally` clause of `checkStoryCompletion` (line 83): remove the
story id from the in-flight set on every exit path. -/
def finallyDeleteCheck (storyId : String) (r : World × Except Unit Unit) :
    World × Except Unit Unit :=
  ({ r.1 with completionChecks := r.1.completionChecks.erase storyId }, r.2)

/-- `checkStoryCompletion` (lines 18–85): if the story id is already in the
process-wide `completionChecks` set, return immediately; otherwise add it,
run the body, and — in the `finally` — remove it again on every exit path.
The catch block logs and re-throws, so the body's exception state is
propagated unchanged. -/
def checkStoryCompletion (w : World) (storyId : String) :
    World × Except Unit Unit :=
  if storyId ∈ w.completionChecks then (w, .ok ())
  else
    finallyDeleteCheck storyId
      (checkStoryCompletionBody
        { w with completionChecks := storyId :: w.completionChecks } storyId)

/-! ### Anchor storage (`storeAnchors`, webhook handler) -/

/-- One entity from `scriptData.metadata.anchors.{characters,settings}`. -/
structure AnchorInput where
  uuid : String
  name : String
  description : String
  appearances : Nat
  deriving Repr, DecidableEq

/-- The `anchors` object of the script metadata. -/
structure ScriptAnchors where
  characters : List AnchorInput
  settings : List AnchorInput
  deriving Repr, DecidableEq

/-- An anchor row as created by `prisma.anchor.create`. -/
structure AnchorRow where
  story_id : String
  anchor_uuid : String
  type : String
  name : String
  description : String
  appearances : Nat
  status : String
  deriving Repr, DecidableEq

/-- The row `storeAnchors` creates for one entity of the given type:
`status: appearances >= 2 ? 'pending' : 'not_needed'`. -/
def mkAnchorRow (storyId ty : String) (a : AnchorInput) : AnchorRow :=
  { story_id := storyId, anchor_uuid := a.uuid, type := ty,
    name := a.name, description := a.description,
    appearances := a.appearances,
    status := if 2 ≤ a.appearances then "pending" else "not_needed" }

/-- `storeAnchors` (webhook handler, part_008 lines 194–226): create one row
per character anchor, then one per setting anchor. -/
def storeAnchors (storyId : String) (d : ScriptAnchors) : List AnchorRow :=
  d.characters.map (mkAnchorRow storyId "character")
    ++ d.settings.map (mkAnchorRow storyId "setting")

/-! ### Concurrency limiter (`processScenesWithConcurrency`, SpeechService)

`processScenesWithConcurrency` (SpeechService lines 94–124) runs one
`processScene` task per scene.  A task busy-waits while
`activeRequests >= maxConcurrent`, increments `activeRequests` (the check
and the increment are separated by no `await`, so together they are one
atomic step of the event loop), runs the scene, and in a `finally`
decrements the counter; a throwing scene is caught and its audio segment
status set to `"failed"`.  `Promise.allSettled` waits for every task.

This is embedded as a transition system: each task is `waiting` (parked in
the busy-wait loop or not yet started), `running`, or finished with its
per-unit outcome.  `throws` records, per scene, whether
`generateAudioForScene` throws for it; a throwing scene finishes in
`doneFailed` (its segment status written as `"failed"` by the catch), a
non-throwing one in `doneOk`. -/

/-- State of one scene task. -/
inductive TaskState where
  | waiting
  | running
  | doneOk
  | doneFailed
  deriving Repr, DecidableEq

/-- A task has settled with its per-unit terminal outcome. -/
def TaskState.isDone : TaskState → Bool
  | .doneOk => true
  | .doneFailed => true
  | _ => false

/-- `MAX_CONCURRENT_CALLS = 10` (SpeechService line 16). -/
def MAX_CONCURRENT_CALLS : Nat := 10

/-- Scheduler state: per-scene task states and the `activeRequests` counter. -/
structure SchedState where
  tasks : List TaskState
  activeRequests : Nat
  deriving Repr, DecidableEq

/-- All scene tasks created by the `.map`, none yet past the busy-wait. -/
def initState (throws : List Bool) : SchedState :=
  { tasks := List.replicate throws.length TaskState.waiting, activeRequests := 0 }


/-- One atomic step of the event loop inside `processScenesWithConcurrency`:
either a waiting task observes `activeRequests < maxConcurrent`, leaves the
busy-wait and increments the counter (`start` — the check and the increment
are not separated by an `await`), or a running task finishes —
successfully or by throwing, in which case the catch records the
`"failed"` segment status — and the `finally` decrements the counter
(`finish`). -/
inductive Step (throws : List Bool) : SchedState → SchedState → Prop where
  | start {s : SchedState} (i : Nat)
      (hw : s.tasks[i]? = some TaskState.waiting)
      (hcap : s.activeRequests < MAX_CONCURRENT_CALLS) :
      Step throws s { tasks := s.tasks.set i TaskState.running,
                      activeRequests := s.activeRequests + 1 }
  | finish {s : SchedState} (i : Nat) (b : Bool)
      (hr : s.tasks[i]? = some TaskState.running)
      (hb : throws[i]? = some b) :
      Step throws s
        { tasks := s.tasks.set i (if b then TaskState.doneFailed else TaskState.doneOk),
          activeRequests := s.activeRequests - 1 }

/-- States the scheduler can reach from the initial fan-out. -/
def Reachable (throws : List Bool) (s : SchedState) : Prop :=
  Relation.ReflTransGen (Step throws) (initState throws) s

/-- Number of concurrently running scene tasks. -/
def runningCount (l : List TaskState) : Nat :=
  l.countP (fun t => t == TaskState.running)

/-- Inductive invariant of the scheduler: `activeRequests` counts exactly
the running tasks and never exceeds the cap, and a settled task's outcome
matches whether its scene throws. -/
structure SchedInv (throws : List Bool) (s : SchedState) : Prop where
  len : s.tasks.length = throws.length
  run_eq : runningCount s.tasks = s.activeRequests
  cap : s.activeRequests ≤ MAX_CONCURRENT_CALLS
  okConsistent : ∀ i : Nat, s.tasks[i]? = some TaskState.doneOk →
    throws[i]? = some false
  failConsistent : ∀ i : Nat, s.tasks[i]? = some TaskState.doneFailed →
    throws[i]? = some true

/-! ### Concrete scenarios -/

/-- Audio and music ready for story `"s1"`; no images; no query failures. -/
def readyBase : World :=
  { completionChecks := []
    stories := [("s1", { status := "audio_completed",
                         audio_url := some "https://cdn.example/audio.mp3" })]
    images := []
    musics := [("s1", { status := "completed",
                        audio_url := some "https://cdn.example/music.mp3" })]
    triggers := []
    failFindStory := false
    failAudioQuery := false
    failImageCount := false
    failMusicQuery := false
    failUpdateStory := false }

/-- Nine completed shots and one terminally failed shot for `"s1"`. -/
def imagesNineOfTen : List Image :=
  [⟨"s1", "completed"⟩, ⟨"s1", "completed"⟩, ⟨"s1", "completed"⟩,
   ⟨"s1", "completed"⟩, ⟨"s1", "completed"⟩, ⟨"s1", "completed"⟩,
   ⟨"s1", "completed"⟩, ⟨"s1", "completed"⟩, ⟨"s1", "completed"⟩,
   ⟨"s1", "failed"⟩]

/-- Nine completed shots and one image still in the status
`generateImageForShot` dispatches with (`'processing'`). -/
def imagesOneProcessing : List Image :=
  [⟨"s1", "completed"⟩, ⟨"s1", "completed"⟩, ⟨"s1", "completed"⟩,
   ⟨"s1", "completed"⟩, ⟨"s1", "completed"⟩, ⟨"s1", "completed"⟩,
   ⟨"s1", "completed"⟩, ⟨"s1", "completed"⟩, ⟨"s1", "completed"⟩,
   ⟨"s1", dispatchedImageStatus⟩]

/-- A fully ready story: audio, music, and ten all-terminal images with a
90% success rate. -/
def wReady : World := { readyBase with images := imagesNineOfTen }

/-- Ready story except one image is still in flight (`'processing'`). -/
def wProcessing : World := { readyBase with images := imagesOneProcessing }

/-- Ready story whose `story.findUnique` raises. -/
def wFindFail : World := { readyBase with images := imagesNineOfTen, failFindStory := true }

/-- Ready story whose image count queries raise. -/
def wCountFail : World := { readyBase with images := imagesNineOfTen, failImageCount := true }

/-- A story already in the fully published `'completed'` status. -/
def wCompleted : World :=
  { readyBase with
    images := imagesNineOfTen
    stories := [("s1", { status := "completed",
                         audio_url := some "https://cdn.example/audio.mp3" })] }

/-- Ready story whose id is already in the in-flight guard set. -/
def wGuard : World := { readyBase with images := imagesNineOfTen, completionChecks := ["s1"] }

/-- 25 scenes of which the last 5 throw. -/
def throws25 : List Bool := List.replicate 20 false ++ List.replicate 5 true

/-- Script metadata with two characters (3 and 1 appearances) and one
setting (2 appearances). -/
def anchorsSample : ScriptAnchors :=
  { characters := [⟨"u1", "Caesar", "Roman general", 3⟩,
                   ⟨"u2", "Servant", "minor figure", 1⟩]
    settings := [⟨"u3", "Forum", "the Roman forum", 2⟩] }

theorem countP_set_eq {α : Type} (p : α → Bool) :
    ∀ (l : List α) (i : Nat) (a old : α), l[i]? = some old →
      (l.set i a).countP p + (if p old then 1 else 0)
        = l.countP p + (if p a then 1 else 0)
  | [], i, _, _, h => by simp at h
  | x :: xs, 0, a, old, h => by
    simp at h
    subst h
    simp [List.countP_cons]
    omega
  | x :: xs, i + 1, a, old, h => by
    simp at h
    have ih := countP_set_eq p xs i a old h
    simp [List.countP_cons]
    omega

theorem runningCount_replicate_waiting (n : Nat) :
    runningCount (List.replicate n TaskState.waiting) = 0 := by
  induction n with
  | zero => rfl
  | succ n ih => simp [List.replicate_succ, runningCount, List.countP_cons, ih]

theorem schedInv_init (throws : List Bool) : SchedInv throws (initState throws) := by
  refine ⟨by simp [initState], runningCount_replicate_waiting _,
    by simp [MAX_CONCURRENT_CALLS, initState], ?_, ?_⟩ <;>
  · intro i h
    have hmem := List.getElem?_mem h
    have := List.eq_of_mem_replicate hmem
    simp at this

theorem schedInv_step {throws : List Bool} {s s2 : SchedState}
    (hinv : SchedInv throws s) (hstep : Step throws s s2) : SchedInv throws s2 := by
  cases hstep with
  | start i hw hcap =>
    have hlt : i < s.tasks.length := by
      rcases List.getElem?_eq_some.1 hw with ⟨h1, _⟩
      exact h1
    have hcount := countP_set_eq (fun t => t == TaskState.running)
      s.tasks i TaskState.running TaskState.waiting hw
    simp at hcount
    refine ⟨by simpa using hinv.len, ?_, ?_, ?_, ?_⟩
    · show runningCount (s.tasks.set i TaskState.running) = s.activeRequests + 1
      have hrun := hinv.run_eq
      simp [runningCount] at hrun hcount ⊢
      omega
    · show s.activeRequests + 1 ≤ MAX_CONCURRENT_CALLS
      exact hcap
    · intro j hj
      by_cases hij : i = j
      · subst hij
        rw [List.getElem?_set_self hlt] at hj
        simp at hj
      · rw [List.getElem?_set_ne hij] at hj
        exact hinv.okConsistent j hj
    · intro j hj
      by_cases hij : i = j
      · subst hij
        rw [List.getElem?_set_self hlt] at hj
        simp at hj
      · rw [List.getElem?_set_ne hij] at hj
        exact hinv.failConsistent j hj
  | finish i b hr hb =>
    have hlt : i < s.tasks.length := by
      rcases List.getElem?_eq_some.1 hr with ⟨h1, _⟩
      exact h1
    have hcount := countP_set_eq (fun t => t == TaskState.running)
      s.tasks i (if b then TaskState.doneFailed else TaskState.doneOk)
      TaskState.running hr
    have hrun := hinv.run_eq
    have hcap9 := hinv.cap
    cases b with
    | false =>
      simp at hcount
      refine ⟨by simpa using hinv.len, ?_, ?_, ?_, ?_⟩
      · show runningCount (s.tasks.set i TaskState.doneOk) = s.activeRequests - 1
        simp [runningCount] at hrun hcount ⊢
        omega
      · show s.activeRequests - 1 ≤ MAX_CONCURRENT_CALLS
        omega
      · intro j hj
        by_cases hij : i = j
        · subst hij
          exact hb
        · simp only [List.getElem?_set_ne hij] at hj
          exact hinv.okConsistent j hj
      · intro j hj
        by_cases hij : i = j
        · subst hij
          rw [List.getElem?_set_self hlt] at hj
          simp at hj
        · simp only [List.getElem?_set_ne hij] at hj
          exact hinv.failConsistent j hj
    | true =>
      simp at hcount
      refine ⟨by simpa using hinv.len, ?_, ?_, ?_, ?_⟩
      · show runningCount (s.tasks.set i TaskState.doneFailed) = s.activeRequests - 1
        simp [runningCount] at hrun hcount ⊢
        omega
      · show s.activeRequests - 1 ≤ MAX_CONCURRENT_CALLS
        omega
      · intro j hj
        by_cases hij : i = j
        · subst hij
          rw [List.getElem?_set_self hlt] at hj
          simp at hj
        · simp only [List.getElem?_set_ne hij] at hj
          exact hinv.okConsistent j hj
      · intro j hj
        by_cases hij : i = j
        · subst hij
          exact hb
        · simp only [List.getElem?_set_ne hij] at hj
          exact hinv.failConsistent j hj

theorem schedInv_reachable {throws : List Bool} {s : SchedState}
    (h : Reachable throws s) : SchedInv throws s := by
  induction h with
  | refl => exact schedInv_init throws
  | tail _ hstep ih => exact schedInv_step ih hstep

theorem stuck_all_done {throws : List Bool} {s : SchedState}
    (hinv : SchedInv throws s) (hstuck : ∀ s2, ¬ Step throws s s2) :
    ∀ t ∈ s.tasks, t.isDone = true := by
  have hnorun : ∀ j : Nat, ¬ s.tasks[j]? = some TaskState.running := by
    intro j hr
    rcases List.getElem?_eq_some.1 hr with ⟨hlt, _⟩
    have hltt : j < throws.length := hinv.len ▸ hlt
    exact hstuck _ (Step.finish j throws[j] hr (List.getElem?_eq_getElem hltt))
  have hzero : runningCount s.tasks = 0 := by
    rw [runningCount, List.countP_eq_zero]
    intro t ht
    rcases List.mem_iff_getElem?.1 ht with ⟨j, hj⟩
    intro heq
    simp at heq
    subst heq
    exact hnorun j hj
  have hactive : s.activeRequests = 0 := by
    have := hinv.run_eq
    omega
  have hnowait : ∀ j : Nat, ¬ s.tasks[j]? = some TaskState.waiting := by
    intro j hw
    exact hstuck _ (Step.start j hw
      (by rw [hactive]; simp [MAX_CONCURRENT_CALLS]))
  intro t ht
  rcases List.mem_iff_getElem?.1 ht with ⟨j, hj⟩
  cases t with
  | waiting => exact absurd hj (hnowait j)
  | running => exact absurd hj (hnorun j)
  | doneOk => rfl
  | doneFailed => rfl

theorem step_frame {throws : List Bool} {s s2 : SchedState}
    (h : Step throws s s2) :
    ∃ i : Nat, ∀ j : Nat, ¬ j = i → s2.tasks[j]? = s.tasks[j]? := by
  cases h with
  | start i hw hcap =>
    exact ⟨i, fun j hj => List.getElem?_set_ne (fun he => hj he.symm)⟩
  | finish i b hr hb =>
    exact ⟨i, fun j hj => List.getElem?_set_ne (fun he => hj he.symm)⟩

/-! ### Helper lemmas -/

theorem updateStoryStatus_checks {w : World} {sid st : String} {w2 : World}
    (h : updateStoryStatus w sid st = Except.ok w2) :
    w2.completionChecks = w.completionChecks := by
  unfold updateStoryStatus at h
  split at h
  · exact absurd h (by simp)
  · split at h
    · exact absurd h (by simp)
    · cases h
      rfl

theorem checkStoryCompletionBody_checks (w : World) (storyId : String) :
    (checkStoryCompletionBody w storyId).1.completionChecks = w.completionChecks := by
  unfold checkStoryCompletionBody
  repeat' split
  all_goals try rfl
  rename_i w2 heq
  show (triggerNextPhase w2 storyId).completionChecks = w.completionChecks
  show w2.completionChecks = w.completionChecks
  exact updateStoryStatus_checks heq

theorem markStoryCompleted_ok_of_found {w : World} {sid : String} {st : Story}
    (h2 : w.failUpdateStory = false) (hf : findStory w sid = some st) :
    markStoryCompleted w sid
      = Except.ok { w with stories := w.stories.map (fun p =>
          if p.1 == sid then (p.1, { p.2 with status := "audio_completed" }) else p) } := by
  unfold markStoryCompleted updateStoryStatus
  rw [h2]
  simp only [Bool.false_eq_true, if_false]
  unfold findStory at hf
  rcases hfind : w.stories.find? (fun p => p.1 == sid) with _ | p
  · rw [hfind] at hf
    simp at hf
  · simp [hfind]

theorem checkStoryCompletionBody_ok (w : World) (storyId : String)
    (h1 : w.failFindStory = false) (h2 : w.failUpdateStory = false) :
    (checkStoryCompletionBody w storyId).2 = Except.ok () := by
  unfold checkStoryCompletionBody
  split
  · rename_i hfail
    rw [h1] at hfail
    simp at hfail
  · split
    · rfl
    · rename_i story hfind
      split
      · rfl
      · split
        · rfl
        · split
          · rfl
          · split
            · rfl
            · split
              · rfl
              · rw [markStoryCompleted_ok_of_found h2 hfind]

/-! ### Claims -/

/-- C1 (claim fails on the code): `'processing'` — the status
`generateImageForShot` assigns to a freshly dispatched image — is missing
from `NON_TERMINAL_STATUSES`, so for a story with nine completed images
and one image still in `'processing'` the gate counts `nonTerminal = 0`,
reports `allAttempted = true` and `acceptable = true`, and
`checkStoryCompletion` advances the story and fires the Phase Trigger even
though an image is still in flight — contradicting the claim that any
image in `'pending'`, `'processing'`, `'queued'` or `'generating'` forces
`allAttempted = false` and blocks advancement. -/
theorem processing_image_passes_image_gate :
    ({ story_id := "s1", status := dispatchedImageStatus } : Image) ∈ wProcessing.images
    ∧ (checkImagesCompletion wProcessing "s1").nonTerminal = 0
    ∧ (checkImagesCompletion wProcessing "s1").allAttempted = true
    ∧ (checkImagesCompletion wProcessing "s1").acceptable = true
    ∧ (checkStoryCompletion wProcessing "s1").1.triggers = ["s1"] := by
  simp +decide [checkStoryCompletion, checkStoryCompletionBody, finallyDeleteCheck,
    checkAudioCompletion, checkMusicCompletion, checkImagesCompletion,
    markStoryCompleted, updateStoryStatus, triggerNextPhase,
    findStory, findMusic, strTruthy, imageTotal, imageCompletedCount,
    imageFailedCount, imageNonTerminalCount, NON_TERMINAL_STATUSES,
    TERMINAL_FAILED_STATUSES, MIN_IMAGE_SUCCESS_RATE, zeroImagesResult,
    dispatchedImageStatus, wProcessing, readyBase, imagesOneProcessing]

/-- C2 (claim fails on the code): `markStoryCompleted` writes
`'audio_completed'`, not `'completed'`, so after a successful evaluation
the step-1 short-circuit (`story.status === 'completed'`) never engages:
for a fully ready story the first invocation fires the Phase Trigger and
leaves the status at `'audio_completed'`, and a second sequential
invocation fires the Phase Trigger again — the downstream phase does not
fire exactly once per crossing of the ready threshold. -/
theorem ready_story_retriggers_next_phase :
    (checkStoryCompletion wReady "s1").1.triggers = ["s1"]
    ∧ (findStory (checkStoryCompletion wReady "s1").1 "s1").map Story.status
        = some "audio_completed"
    ∧ (checkStoryCompletion (checkStoryCompletion wReady "s1").1 "s1").1.triggers
        = ["s1", "s1"] := by
  simp +decide [checkStoryCompletion, checkStoryCompletionBody, finallyDeleteCheck,
    checkAudioCompletion, checkMusicCompletion, checkImagesCompletion,
    markStoryCompleted, updateStoryStatus, triggerNextPhase,
    findStory, findMusic, strTruthy, imageTotal, imageCompletedCount,
    imageFailedCount, imageNonTerminalCount, NON_TERMINAL_STATUSES,
    TERMINAL_FAILED_STATUSES, MIN_IMAGE_SUCCESS_RATE, zeroImagesResult,
    wReady, readyBase, imagesNineOfTen]

/-- C3 counterexample: when the story lookup raises, the catch block of
`checkStoryCompletion` logs and re-throws — the call exits exceptionally
instead of returning normally. -/
theorem find_error_propagates :
    (checkStoryCompletion wFindFail "s1").2 = Except.error () := by
  simp +decide [checkStoryCompletion, checkStoryCompletionBody, finallyDeleteCheck,
    wFindFail, readyBase, imagesNineOfTen]

/-- C3 amended: the audio, image and music sub-checks swallow their own
query errors, so the only operations whose failure escapes
`checkStoryCompletion` are the story lookup and the completion-status
update: whenever those two do not raise, the call returns normally for
every world and story id (and the in-flight guard entry is removed on
every exit path, see the C8 guard theorem). -/
theorem checkStoryCompletion_ok_unless_find_or_update_raises
    (w : World) (storyId : String)
    (h1 : w.failFindStory = false) (h2 : w.failUpdateStory = false) :
    (checkStoryCompletion w storyId).2 = Except.ok () := by
  unfold checkStoryCompletion
  split
  · rfl
  · show (checkStoryCompletionBody
      { w with completionChecks := storyId :: w.completionChecks } storyId).2
        = Except.ok ()
    exact checkStoryCompletionBody_ok _ storyId h1 h2

/-- Witness for the C3 amended theorem at a concrete ready world. -/
theorem checkStoryCompletion_ok_unless_find_or_update_raises_witness :
    (checkStoryCompletion wReady "s1").2 = Except.ok () :=
  checkStoryCompletion_ok_unless_find_or_update_raises wReady "s1" rfl rfl

/-- C4: with all images terminal (`nonTerminal = 0`) and a nonzero
population, the gate accepts exactly when
`completed/total ≥ MIN_IMAGE_SUCCESS_RATE = 0.90` — the comparison is `≥`,
not `>` — and the reported success rate is `completed/total`. -/
theorem images_threshold_is_ge (w : World) (storyId : String)
    (hf : w.failImageCount = false)
    (hnt : imageNonTerminalCount w storyId = 0)
    (ht : 0 < imageTotal w storyId) :
    ((checkImagesCompletion w storyId).acceptable = true ↔
      MIN_IMAGE_SUCCESS_RATE
        ≤ (imageCompletedCount w storyId : ℚ) / (imageTotal w storyId : ℚ))
    ∧ (checkImagesCompletion w storyId).successRate
        = (imageCompletedCount w storyId : ℚ) / (imageTotal w storyId : ℚ) := by
  have ht0 : ¬ imageTotal w storyId = 0 := by omega
  unfold checkImagesCompletion
  rw [hf]
  simp [ht0, hnt]

/-- C4 witness: ten images, nine completed, one terminally failed, all
terminal — `successRate = 9/10` and the gate accepts (`≥`, not `>`). -/
theorem images_threshold_is_ge_witness :
    (checkImagesCompletion wReady "s1").acceptable = true
    ∧ (checkImagesCompletion wReady "s1").successRate = 9 / 10 := by
  have h := images_threshold_is_ge wReady "s1" rfl
    (by simp +decide [imageNonTerminalCount, wReady, readyBase, imagesNineOfTen,
      NON_TERMINAL_STATUSES])
    (by simp +decide [imageTotal, wReady, readyBase, imagesNineOfTen])
  have hc : imageCompletedCount wReady "s1" = 9 := by
    simp +decide [imageCompletedCount, wReady, readyBase, imagesNineOfTen]
  have htt : imageTotal wReady "s1" = 10 := by
    simp +decide [imageTotal, wReady, readyBase, imagesNineOfTen]
  rw [hc, htt] at h
  refine ⟨h.1.mpr ?_, by rw [h.2]; norm_num⟩
  norm_num [MIN_IMAGE_SUCCESS_RATE]

/-- C5: a story with zero dispatched images is reported not-ready:
`acceptable = false`, `allAttempted = false`, `successRate = 0`, with the
division guarded by the `total === 0` early return. -/
theorem images_zero_total_not_ready (w : World) (storyId : String)
    (h : imageTotal w storyId = 0) :
    (checkImagesCompletion w storyId).acceptable = false
    ∧ (checkImagesCompletion w storyId).allAttempted = false
    ∧ (checkImagesCompletion w storyId).successRate = 0 := by
  unfold checkImagesCompletion
  split
  · simp [zeroImagesResult]
  · simp [h, zeroImagesResult]

/-- C5 witness: a world with no image rows. -/
theorem images_zero_total_not_ready_witness :
    imageTotal readyBase "s1" = 0
    ∧ (checkImagesCompletion readyBase "s1").acceptable = false
    ∧ (checkImagesCompletion readyBase "s1").allAttempted = false
    ∧ (checkImagesCompletion readyBase "s1").successRate = 0 :=
  ⟨rfl, images_zero_total_not_ready readyBase "s1" rfl⟩

/-- C6: the scene fan-out of `processScenesWithConcurrency` keeps at most
`MAX_CONCURRENT_CALLS = 10` scene tasks running in every reachable
scheduler state; when no step is possible any more (the point where
`Promise.allSettled` resolves and the function returns) every scene has
settled with a terminal per-unit outcome; every step changes at most its
own task, so one scene's failure never cancels a sibling; and a throwing
scene settles as failed (its segment status set `"failed"`) while a
non-throwing one settles successfully. -/
theorem processScenesWithConcurrency_spec (throws : List Bool) (s : SchedState)
    (h : Reachable throws s) :
    (s.activeRequests ≤ MAX_CONCURRENT_CALLS
      ∧ runningCount s.tasks = s.activeRequests)
    ∧ ((∀ s2, ¬ Step throws s s2) → ∀ t ∈ s.tasks, t.isDone = true)
    ∧ (∀ s2, Step throws s s2 → ∃ i : Nat, ∀ j : Nat, ¬ j = i →
        s2.tasks[j]? = s.tasks[j]?)
    ∧ (∀ i : Nat, s.tasks[i]? = some TaskState.doneFailed → throws[i]? = some true)
    ∧ (∀ i : Nat, s.tasks[i]? = some TaskState.doneOk → throws[i]? = some false) := by
  have hinv := schedInv_reachable h
  exact ⟨⟨hinv.cap, hinv.run_eq⟩, fun hstuck => stuck_all_done hinv hstuck,
    fun s2 hs => step_frame hs, hinv.failConsistent, hinv.okConsistent⟩

/-- C6 witness: 25 scenes of which 5 throw, at the (reachable) initial
state. -/
theorem processScenesWithConcurrency_spec_witness :
    (initState throws25).activeRequests ≤ MAX_CONCURRENT_CALLS
    ∧ runningCount (initState throws25).tasks = (initState throws25).activeRequests :=
  (processScenesWithConcurrency_spec throws25 (initState throws25)
    Relation.ReflTransGen.refl).1

/-- C7 counterexample: the status write in `markStoryCompleted` is gated
only by the story id, not by the current status — applied to a story whose
current status is `'completed'` it overwrites it with the earlier status
`'audio_completed'`. -/
theorem markStoryCompleted_overwrites_completed :
    (findStory wCompleted "s1").map Story.status = some "completed"
    ∧ (markStoryCompleted wCompleted "s1").toOption.map
        (fun w => (findStory w "s1").map Story.status)
      = some (some "audio_completed") := by
  simp +decide [markStoryCompleted, updateStoryStatus, findStory, wCompleted,
    readyBase, imagesNineOfTen, Except.toOption]

/-- C7 amended: `checkStoryCompletion` itself never regresses a story it
observes as `'completed'` — the step-1 short-circuit returns before any
write — but the underlying status writes are unconditional on current
status (see the counterexample), so forward-only movement is enforced only
by callers' pre-checks, not at the write itself. -/
theorem completed_story_never_overwritten_by_check
    (w : World) (storyId : String) (st : Story)
    (h1 : w.failFindStory = false)
    (h2 : findStory w storyId = some st)
    (h3 : st.status = "completed") :
    checkStoryCompletion w storyId = (w, Except.ok ()) := by
  have h2u : (w.stories.find? (fun p => p.1 == storyId)).map Prod.snd
      = some st := h2
  obtain ⟨cc, sto, im, mu, tr, f1, f2, f3, f4, f5⟩ := w
  subst h1
  by_cases hmem : storyId ∈ cc
  · simp [checkStoryCompletion, hmem]
  · simp [checkStoryCompletion, hmem, finallyDeleteCheck,
      checkStoryCompletionBody, findStory, h2u, h3, List.erase_cons_head]

/-- Witness for the C7 amended theorem at a concrete completed world. -/
theorem completed_story_never_overwritten_by_check_witness :
    checkStoryCompletion wCompleted "s1" = (wCompleted, Except.ok ()) :=
  completed_story_never_overwritten_by_check wCompleted "s1"
    { status := "completed", audio_url := some "https://cdn.example/audio.mp3" }
    rfl rfl rfl

/-- C8: the in-flight guard — an id present in `completionChecks` at entry
makes the call an immediate no-op returning the world unchanged, and in
every case (normal return, early return, or error) the guard set after the
call equals the set before: the id is added before evaluation and removed
on every exit path. -/
theorem completionChecks_guard (w : World) (storyId : String) :
    (checkStoryCompletion w storyId).1.completionChecks = w.completionChecks
    ∧ (storyId ∈ w.completionChecks →
        checkStoryCompletion w storyId = (w, Except.ok ())) := by
  constructor
  · by_cases hmem : storyId ∈ w.completionChecks
    · simp [checkStoryCompletion, hmem]
    · simp [checkStoryCompletion, hmem, finallyDeleteCheck,
        checkStoryCompletionBody_checks, List.erase_cons_head]
  · intro hmem
    simp [checkStoryCompletion, hmem]

/-- C8 witness: a world whose guard set already holds the story id. -/
theorem completionChecks_guard_witness :
    ("s1" ∈ wGuard.completionChecks)
    ∧ checkStoryCompletion wGuard "s1" = (wGuard, Except.ok ()) :=
  have hmem : "s1" ∈ wGuard.completionChecks := by
    simp +decide [wGuard, readyBase]
  ⟨hmem, (completionChecks_guard wGuard "s1").2 hmem⟩

/-- Status rule applied by `storeAnchors` for one stored row. -/
theorem mkAnchorRow_status (storyId ty : String) (a : AnchorInput) :
    ((mkAnchorRow storyId ty a).status = "pending"
      ↔ 2 ≤ (mkAnchorRow storyId ty a).appearances)
    ∧ ((mkAnchorRow storyId ty a).status = "not_needed"
      ↔ (mkAnchorRow storyId ty a).appearances < 2) := by
  unfold mkAnchorRow
  by_cases ha : 2 ≤ a.appearances <;> simp +decide [ha]
  all_goals omega

/-- C9: every anchor row stored by `storeAnchors` — character or setting —
is created with status `'pending'` exactly when the entity appears at
least twice, and `'not_needed'` exactly when it appears fewer than two
times. -/
theorem storeAnchors_status_rule (storyId : String) (d : ScriptAnchors)
    (row : AnchorRow) (h : row ∈ storeAnchors storyId d) :
    (row.status = "pending" ↔ 2 ≤ row.appearances)
    ∧ (row.status = "not_needed" ↔ row.appearances < 2) := by
  unfold storeAnchors at h
  rw [List.mem_append] at h
  rcases h with h | h <;> rcases List.mem_map.1 h with ⟨a, _, heq⟩ <;> subst heq <;>
    exact mkAnchorRow_status _ _ a

/-- C9 witness: a character appearing three times is stored `'pending'`. -/
theorem storeAnchors_status_rule_witness :
    ((mkAnchorRow "s1" "character"
        { uuid := "u1", name := "Caesar", description := "Roman general",
          appearances := 3 }).status = "pending"
      ↔ 2 ≤ (mkAnchorRow "s1" "character"
        { uuid := "u1", name := "Caesar", description := "Roman general",
          appearances := 3 }).appearances)
    ∧ ((mkAnchorRow "s1" "character"
        { uuid := "u1", name := "Caesar", description := "Roman general",
          appearances := 3 }).status = "not_needed"
      ↔ (mkAnchorRow "s1" "character"
        { uuid := "u1", name := "Caesar", description := "Roman general",
          appearances := 3 }).appearances < 2) :=
  storeAnchors_status_rule "s1" anchorsSample _
    (by simp +decide [storeAnchors, anchorsSample, mkAnchorRow])

/-- C10: if the image count queries raise, `checkImagesCompletion` catches
the error and returns the all-zero not-ready record — `acceptable = false`,
`allAttempted = false`, all counts and the success rate zero — instead of
raising to `checkStoryCompletion`. -/
theorem images_query_error_not_ready (w : World) (storyId : String)
    (h : w.failImageCount = true) :
    checkImagesCompletion w storyId = zeroImagesResult
    ∧ zeroImagesResult.acceptable = false
    ∧ zeroImagesResult.allAttempted = false
    ∧ zeroImagesResult.total = 0
    ∧ zeroImagesResult.completed = 0
    ∧ zeroImagesResult.failed = 0
    ∧ zeroImagesResult.nonTerminal = 0
    ∧ zeroImagesResult.successRate = 0 := by
  refine ⟨?_, rfl, rfl, rfl, rfl, rfl, rfl, rfl⟩
  unfold checkImagesCompletion
  rw [h]
  simp

/-- C10 witness: a ready world whose image count queries raise. -/
theorem images_query_error_not_ready_witness :
    checkImagesCompletion wCountFail "s1" = zeroImagesResult :=
  (images_query_error_not_ready wCountFail "s1" rfl).1

end Saga
